import Mathlib

/-!
Verification of the recipe-explorer worker (src/src/index.ts, routed variant).

The embedding models JSON values as an abstract syntax tree `Json`; the
JavaScript runtime pair `JSON.parse` / `JSON.stringify` is represented at
the value level (a message's content string is modelled by the outcome of
parsing it, and serialization carries the value unchanged).  Header
collections are ordered key-value lists.  The router's object-spread
`\x7b ...corsHeaders, ...response.headers \x7d` copies the entries of the
plain corsHeaders object, while `response.headers` — a Fetch Headers
instance, whose entries live in internal state and are not own enumerable
properties — contributes nothing, so the rebuilt headers are the CORS
entries alone.
JavaScript string truthiness (`null`, `undefined` and `""` are falsy) is
`strTruthy` on `Option String`.  A thrown JavaScript value is either an
`Error` instance carrying a message or any other value; the `catch` blocks
in the source inspect this with `instanceof`.
-/

namespace RecipeExplorer

/-- JSON values, as produced by JSON.parse. -/
inductive Json where
  | null
  | bool (b : Bool)
  | num (n : Int)
  | str (s : String)
  | arr (elems : List Json)
  | obj (fields : List (String × Json))

/-- A thrown JavaScript value: either an Error instance with a message,
or any other value (a string, a number, ...). -/
inductive Thrown where
  | error (message : String)
  | nonError (v : Json)

/-- The expression `e instanceof Error ? e.message : 'An unknown error occurred'`
from the two catch blocks (index.ts lines 119 and 167). -/
def errToMessage : Thrown → String
  | .error m => m
  | .nonError _ => "An unknown error occurred"

/-- JavaScript truthiness of a nullable string: null/undefined and the
empty string are falsy. -/
def strTruthy : Option String → Bool
  | none => false
  | some s => s ≠ ""

/-- Response bodies: plain text ('Not found') or a JSON value. -/
inductive Body where
  | text (s : String)
  | json (j : Json)

/-- A Response: body, HTTP status and headers (an ordered key-value list).
`new Response(body, opts)` defaults the status to 200 when `opts` has no
`status` field. -/
structure Resp where
  body : Body
  status : Nat
  headers : List (String × String)

/-- The single header set by every handler-built response. -/
def ctJson : List (String × String) := [("Content-Type", "application/json")]

/-- Body of an error response: JSON.stringify on an object with the single
key `error`. -/
def errorJson (msg : String) : Body :=
  .json (.obj [("error", .str msg)])

/-- The response built by every catch block: error body, default status 200,
Content-Type header (index.ts lines 119-123 and 167-171). -/
def catchResp (e : Thrown) : Resp :=
  { body := errorJson (errToMessage e), status := 200, headers := ctJson }

/-! ## Completion-service data (as used by getRecipeFromAI) -/

/-- A message content string, modelled by its JSON.parse outcome:
`wellFormed j` stands for a non-empty string that parses to the value `j`,
`malformed m` for a non-empty string on which JSON.parse throws a
SyntaxError whose message is `m`. -/
inductive ContentStr where
  | wellFormed (j : Json)
  | malformed (errMsg : String)

/-- The message of a chat-completion choice.  `refusal` and `content` are
nullable strings; `none` covers both null and the (falsy) empty string for
the refusal, and null or empty for the content. -/
structure ChatMessage where
  refusal : Option String
  content : Option ContentStr

/-- One choice of a chat completion. -/
structure Choice where
  finish_reason : String
  message : ChatMessage

/-- A chat completion as returned by `openai.chat.completions.create`. -/
structure ChatCompletion where
  choices : List Choice

/-- The body of the try block of getRecipeFromAI (index.ts lines 84-117):
either a thrown value (propagated to the catch) or the Response returned
inside the try.  `call` is the outcome of the awaited outbound call; if the
choices list is empty, reading `choices[0].finish_reason` throws a
TypeError. -/
def recipeTry (call : Except Thrown ChatCompletion) : Except Thrown Resp :=
  match call with
  | .error e => .error e
  | .ok chatCompletion =>
    match chatCompletion.choices.head? with
    | none => .error (Thrown.error
        "Cannot read properties of undefined (reading 'finish_reason')")
    | some choice =>
      if choice.finish_reason = "length" then
        .error (Thrown.error "Incomplete response")
      else if strTruthy choice.message.refusal then
        .error (Thrown.error "Model refused to provide a recipe")
      else
        match choice.message.content with
        | some (.wellFormed j) =>
            .ok { body := .json j, status := 200, headers := ctJson }
        | some (.malformed m) => .error (Thrown.error m)
        | none => .error (Thrown.error "No response content")

/-- getRecipeFromAI (index.ts lines 76-126): validate foodName, run the
try block, normalize every thrown value in the catch. -/
def getRecipeFromAI (foodName : Option String)
    (call : Except Thrown ChatCompletion) : Resp :=
  if ¬ strTruthy foodName then
    { body := errorJson "foodName parameter is required"
      status := 400
      headers := ctJson }
  else
    match recipeTry call with
    | .ok resp => resp
    | .error e => catchResp e

/-! ## Image-search data (as used by getImageFromWeb) -/

/-- The `image` sub-object of a search result item. -/
structure GoogleImage where
  thumbnailLink : String

/-- One item of the image-search response. -/
structure GoogleItem where
  link : String
  image : GoogleImage

/-- The GoogleSearchResponse interface (index.ts lines 137-144): the items
list is optional. -/
structure GoogleSearchResponse where
  items : Option (List GoogleItem)

/-- The fetch Response used by getImageFromWeb: `ok` and `status`
(index.ts lines 150-151), and the outcome of `await response.json()`
(index.ts line 154), which can itself throw. -/
structure HttpResp where
  ok : Bool
  status : Nat
  jsonOutcome : Except Thrown GoogleSearchResponse

/-- The body of the try block of getImageFromWeb (index.ts lines 136-165).
`fetchResult` is the outcome of the awaited outbound fetch. -/
def imageTry (fetchResult : Except Thrown HttpResp) : Except Thrown Resp :=
  match fetchResult with
  | .error e => .error e
  | .ok response =>
    if ¬ response.ok then
      .error (Thrown.error ("Google API error: " ++ toString response.status))
    else
      match response.jsonOutcome with
      | .error e => .error e
      | .ok data =>
        match data.items with
        | none => .error (Thrown.error "No results found on Google")
        | some [] => .error (Thrown.error "No results found on Google")
        | some (first :: _) =>
            .ok
              { body := .json (.obj
                  [("url", .str first.link),
                   ("thumb", .str first.image.thumbnailLink)])
                status := 200
                headers := ctJson }

/-- getImageFromWeb (index.ts lines 128-173): validate foodOrIngName, run
the try block, normalize every thrown value in the catch. -/
def getImageFromWeb (foodOrIngName : Option String)
    (fetchResult : Except Thrown HttpResp) : Resp :=
  if ¬ strTruthy foodOrIngName then
    { body := errorJson "foodOrIngName parameter is required"
      status := 400
      headers := ctJson }
  else
    match imageTry fetchResult with
    | .ok resp => resp
    | .error e => catchResp e

/-! ## The router (index.ts lines 175-205) -/

/-- The CORS headers attached by the router (index.ts lines 177-181). -/
def corsHeaders : List (String × String) :=
  [("Access-Control-Allow-Origin", "*"),
   ("Access-Control-Allow-Methods", "GET,HEAD,POST,OPTIONS"),
   ("Access-Control-Allow-Headers", "Content-Type")]

/-- An incoming request: its URL pathname and its query parameters. -/
structure RouterRequest where
  pathname : String
  searchParams : List (String × String)

/-- `url.searchParams.get(k)`: the first value bound to `k`, or null. -/
def searchParamsGet (ps : List (String × String)) (k : String) :
    Option String :=
  (ps.find? (fun p => p.1 = k)).map (fun p => p.2)

/-- The exported fetch handler (index.ts lines 176-204).  On the two known
paths it rebuilds the handler's Response as
`new Response(response.body, \x7b headers: \x7b ...corsHeaders, ...response.headers \x7d \x7d)`:
the init has no `status` field, so the rebuilt Response takes the
constructor's default status 200; and since `response.headers` is a Fetch
Headers instance with no own enumerable properties, its spread contributes
no entries — the rebuilt headers are exactly the entries of the plain
`corsHeaders` object.  Any other path gets 404 'Not found' with the CORS
headers. -/
def routerFetch (request : RouterRequest)
    (call : Except Thrown ChatCompletion)
    (fetchResult : Except Thrown HttpResp) : Resp :=
  if request.pathname = "/getRecipe" then
    let foodName := searchParamsGet request.searchParams "foodName"
    let response := getRecipeFromAI foodName call
    { body := response.body
      status := 200
      headers := corsHeaders }
  else if request.pathname = "/getImage" then
    let foodOrIngName := searchParamsGet request.searchParams "foodOrIngName"
    let response := getImageFromWeb foodOrIngName fetchResult
    { body := response.body
      status := 200
      headers := corsHeaders }
  else
    { body := .text "Not found", status := 404, headers := corsHeaders }

/-! ## The Recipe schema (the `schema` constant, index.ts lines 16-74) -/

/-- An ingredient: the item shape of the `ingredients` array in the schema
(all three properties required, strings, no additional properties). -/
structure Ingredient where
  name : String
  amount : String
  description : String
deriving Repr, DecidableEq

/-- A recipe: the root object shape of the schema (all four properties
required, no additional properties; `ingredients` an array of Ingredient,
`instructions` an array of strings). -/
structure Recipe where
  name : String
  description : String
  ingredients : List Ingredient
  instructions : List String
deriving Repr, DecidableEq

/-- Serialize an Ingredient to its JSON object, fields in schema order. -/
def ingredientToJson (i : Ingredient) : Json :=
  .obj [("name", .str i.name), ("amount", .str i.amount),
        ("description", .str i.description)]

/-- Serialize a Recipe to its JSON object, fields in schema order,
the order of the ingredients and instructions sequences preserved. -/
def recipeToJson (r : Recipe) : Json :=
  .obj [("name", .str r.name),
        ("description", .str r.description),
        ("ingredients", .arr (r.ingredients.map ingredientToJson)),
        ("instructions", .arr (r.instructions.map Json.str))]

/-- First value bound to a key in a JSON object's field list. -/
def objGet (fields : List (String × Json)) (k : String) : Option Json :=
  (fields.find? (fun p => p.1 = k)).map (fun p => p.2)

/-- Validate a JSON value against the schema's ingredient item shape:
a strict object (`additionalProperties: false`) with the three required
string properties. -/
def ingredientOfJson (j : Json) : Option Ingredient :=
  match j with
  | .obj fields =>
    if fields.all (fun p =>
        p.1 = "name" || p.1 = "amount" || p.1 = "description") then
      match objGet fields "name", objGet fields "amount",
            objGet fields "description" with
      | some (.str n), some (.str a), some (.str d) => some ⟨n, a, d⟩
      | _, _, _ => none
    else none
  | _ => none

/-- Validate every element of a JSON array as an Ingredient, preserving
order. -/
def ingredientsOfJson : List Json → Option (List Ingredient)
  | [] => some []
  | j :: rest =>
    match ingredientOfJson j, ingredientsOfJson rest with
    | some i, some is => some (i :: is)
    | _, _ => none

/-- Validate every element of a JSON array as a string step, preserving
order. -/
def stepsOfJson : List Json → Option (List String)
  | [] => some []
  | .str s :: rest =>
    match stepsOfJson rest with
    | some steps => some (s :: steps)
    | none => none
  | _ => none

/-- Validate a JSON value against the Recipe schema: a strict object with
the four required properties of the declared types. -/
def recipeOfJson (j : Json) : Option Recipe :=
  match j with
  | .obj fields =>
    if fields.all (fun p =>
        p.1 = "name" || p.1 = "description" ||
        p.1 = "ingredients" || p.1 = "instructions") then
      match objGet fields "name", objGet fields "description",
            objGet fields "ingredients", objGet fields "instructions" with
      | some (.str n), some (.str d), some (.arr ings), some (.arr instrs) =>
        match ingredientsOfJson ings, stepsOfJson instrs with
        | some is, some steps => some ⟨n, d, is, steps⟩
        | _, _ => none
      | _, _, _, _ => none
    else none
  | _ => none

/-! ## Helper lemmas -/

/-- Validating a serialized Ingredient recovers it. -/
theorem ingredientOfJson_toJson (i : Ingredient) :
    ingredientOfJson (ingredientToJson i) = some i := rfl

/-- Validating a serialized ingredient list recovers it, order preserved. -/
theorem ingredientsOfJson_map (l : List Ingredient) :
    ingredientsOfJson (l.map ingredientToJson) = some l := by
  induction l with
  | nil => rfl
  | cons i rest ih =>
      simp [ingredientsOfJson, ingredientOfJson_toJson, ih]

/-- Validating a serialized step list recovers it, order preserved. -/
theorem stepsOfJson_map (l : List String) :
    stepsOfJson (l.map Json.str) = some l := by
  induction l with
  | nil => rfl
  | cons s rest ih => simp [stepsOfJson, ih]

/-- Validating a serialized Recipe recovers it. -/
theorem recipeOfJson_toJson (r : Recipe) :
    recipeOfJson (recipeToJson r) = some r := by
  simp [recipeOfJson, recipeToJson, objGet, ingredientsOfJson_map,
    stepsOfJson_map]

/-- A Response the recipe try block returns has the Content-Type header
and a JSON body. -/
theorem recipeTry_ok_shape (call : Except Thrown ChatCompletion)
    (resp : Resp) (h : recipeTry call = .ok resp) :
    resp.headers = ctJson ∧ ∃ j, resp.body = .json j := by
  unfold recipeTry at h
  repeat' split at h
  all_goals first
    | (injection h with h; subst h; exact ⟨rfl, _, rfl⟩)
    | exact absurd h (by simp)

/-- A Response the image try block returns has the Content-Type header
and a JSON body. -/
theorem imageTry_ok_shape (fetchResult : Except Thrown HttpResp)
    (resp : Resp) (h : imageTry fetchResult = .ok resp) :
    resp.headers = ctJson ∧ ∃ j, resp.body = .json j := by
  unfold imageTry at h
  repeat' split at h
  all_goals first
    | (injection h with h; subst h; exact ⟨rfl, _, rfl⟩)
    | exact absurd h (by simp)

/-- Every Response getRecipeFromAI builds has the Content-Type header and
a JSON body. -/
theorem getRecipeFromAI_shape (foodName : Option String)
    (call : Except Thrown ChatCompletion) :
    (getRecipeFromAI foodName call).headers = ctJson
      ∧ ∃ j, (getRecipeFromAI foodName call).body = .json j := by
  unfold getRecipeFromAI
  split
  · exact ⟨rfl, _, rfl⟩
  · rcases h : recipeTry call with e | resp
    · exact ⟨rfl, _, rfl⟩
    · exact recipeTry_ok_shape call resp h

/-- Every Response getImageFromWeb builds has the Content-Type header and
a JSON body. -/
theorem getImageFromWeb_shape (foodOrIngName : Option String)
    (fetchResult : Except Thrown HttpResp) :
    (getImageFromWeb foodOrIngName fetchResult).headers = ctJson
      ∧ ∃ j, (getImageFromWeb foodOrIngName fetchResult).body = .json j := by
  unfold getImageFromWeb
  split
  · exact ⟨rfl, _, rfl⟩
  · rcases h : imageTry fetchResult with e | resp
    · exact ⟨rfl, _, rfl⟩
    · exact imageTry_ok_shape fetchResult resp h

/-! ## Claim theorems -/

/-- C1: the claim asserts that a GET /getRecipe request with absent or
empty foodName yields an end-to-end HTTP status 400 with the
missing-parameter body.  The handler itself does build that 400 response
(first two conjuncts), but the routed fetch handler rebuilds the Response
from its body alone plus the CORS entries, so the end-to-end status is
200, not 400 (last two conjuncts), evaluated at the two failing inputs:
no query string, and an empty foodName value. -/
theorem c1_missing_foodName_end_to_end :
    getRecipeFromAI none (.error (.error "unreached"))
      = { body := errorJson "foodName parameter is required"
          status := 400
          headers := ctJson }
    ∧ getRecipeFromAI (some "") (.error (.error "unreached"))
      = { body := errorJson "foodName parameter is required"
          status := 400
          headers := ctJson }
    ∧ routerFetch ⟨"/getRecipe", []⟩ (.error (.error "unreached"))
        (.error (.error "unreached"))
      = { body := errorJson "foodName parameter is required"
          status := 200
          headers := [("Access-Control-Allow-Origin", "*"),
                      ("Access-Control-Allow-Methods", "GET,HEAD,POST,OPTIONS"),
                      ("Access-Control-Allow-Headers", "Content-Type")] }
    ∧ (routerFetch ⟨"/getRecipe", [("foodName", "")]⟩
        (.error (.error "unreached")) (.error (.error "unreached"))).status
      = 200 :=
  ⟨rfl, rfl, rfl, rfl⟩

/-- C9: the claim asserts that a GET /getImage request with absent or
empty foodOrIngName yields an end-to-end HTTP status 400 with the
missing-parameter body.  The handler itself does build that 400 response
(first two conjuncts), but the routed fetch handler drops the handler's
status when rebuilding the Response, so the end-to-end status is 200, not
400 (last two conjuncts). -/
theorem c9_missing_foodOrIngName_end_to_end :
    getImageFromWeb none (.error (.error "unreached"))
      = { body := errorJson "foodOrIngName parameter is required"
          status := 400
          headers := ctJson }
    ∧ getImageFromWeb (some "") (.error (.error "unreached"))
      = { body := errorJson "foodOrIngName parameter is required"
          status := 400
          headers := ctJson }
    ∧ routerFetch ⟨"/getImage", []⟩ (.error (.error "unreached"))
        (.error (.error "unreached"))
      = { body := errorJson "foodOrIngName parameter is required"
          status := 200
          headers := [("Access-Control-Allow-Origin", "*"),
                      ("Access-Control-Allow-Methods", "GET,HEAD,POST,OPTIONS"),
                      ("Access-Control-Allow-Headers", "Content-Type")] }
    ∧ (routerFetch ⟨"/getImage", [("foodOrIngName", "")]⟩
        (.error (.error "unreached")) (.error (.error "unreached"))).status
      = 200 :=
  ⟨rfl, rfl, rfl, rfl⟩

/-- C10: every routed response for the paths /getRecipe and /getImage has
HTTP status 200, whatever the handler's outcome: the router reconstructs
the handler's Response from its body and headers only, so the rebuilt
Response takes the constructor's default status. -/
theorem c10_routed_status_always_200 (request : RouterRequest)
    (call : Except Thrown ChatCompletion)
    (fetchResult : Except Thrown HttpResp)
    (h : request.pathname = "/getRecipe" ∨ request.pathname = "/getImage") :
    (routerFetch request call fetchResult).status = 200 := by
  rcases h with h | h <;> simp [routerFetch, h]

/-- C10 witness: the routed status is 200 on /getImage even though the
handler's own response (missing parameter) has status 400. -/
theorem c10_witness :
    (routerFetch ⟨"/getImage", []⟩ (.error (.error "e"))
      (.error (.error "e"))).status = 200 :=
  c10_routed_status_always_200 _ _ _ (Or.inr rfl)

/-- C2: every failure of the single outbound call or of content parsing —
including thrown values that are not Error instances — is normalized by
the handler's catch block to a response whose body is the error object
with the Error's message when the thrown value is an Error instance and
the fixed string "An unknown error occurred" otherwise; and both handlers
are total, always producing a response with a JSON body, so no fault
passes the handler boundary. -/
theorem c2_catch_normalizes_all_failures :
    (∀ m : String, errToMessage (.error m) = m)
    ∧ (∀ v : Json, errToMessage (.nonError v) = "An unknown error occurred")
    ∧ (∀ (foodName : Option String) (call : Except Thrown ChatCompletion)
         (e : Thrown), strTruthy foodName = true → recipeTry call = .error e →
         getRecipeFromAI foodName call
           = { body := errorJson (errToMessage e)
               status := 200
               headers := ctJson })
    ∧ (∀ (q : Option String) (fetchResult : Except Thrown HttpResp)
         (e : Thrown), strTruthy q = true → imageTry fetchResult = .error e →
         getImageFromWeb q fetchResult
           = { body := errorJson (errToMessage e)
               status := 200
               headers := ctJson })
    ∧ (∀ (foodName : Option String) (call : Except Thrown ChatCompletion),
         ∃ j, (getRecipeFromAI foodName call).body = .json j)
    ∧ (∀ (q : Option String) (fetchResult : Except Thrown HttpResp),
         ∃ j, (getImageFromWeb q fetchResult).body = .json j) := by
  refine ⟨fun m => rfl, fun v => rfl, ?_, ?_,
    fun fn call => (getRecipeFromAI_shape fn call).2,
    fun q fr => (getImageFromWeb_shape q fr).2⟩
  · intro fn call e h1 h2
    simp [getRecipeFromAI, h1, h2, catchResp]
  · intro q fr e h1 h2
    simp [getImageFromWeb, h1, h2, catchResp]

/-- C2 witness: a non-Error thrown value from each outbound call is
normalized to the fixed fallback message. -/
theorem c2_witness :
    getRecipeFromAI (some "pasta") (.error (.nonError (.str "boom")))
      = { body := errorJson "An unknown error occurred"
          status := 200
          headers := ctJson }
    ∧ getImageFromWeb (some "tomato") (.error (.nonError .null))
      = { body := errorJson "An unknown error occurred"
          status := 200
          headers := ctJson } :=
  ⟨c2_catch_normalizes_all_failures.2.2.1 (some "pasta")
      (.error (.nonError (.str "boom"))) (.nonError (.str "boom"))
      (by decide) rfl,
   c2_catch_normalizes_all_failures.2.2.2.1 (some "tomato")
      (.error (.nonError .null)) (.nonError .null) (by decide) rfl⟩

/-- C3: when the completion reports finish_reason "length", the handler
returns the "Incomplete response" error body — with no condition on the
refusal or the content, so the truncation check precedes the refusal check
and the content-parsing branch, and no partial Recipe content is ever
returned. -/
theorem c3_truncation_precedence (foodName : Option String)
    (cc : ChatCompletion) (choice : Choice)
    (hfood : strTruthy foodName = true)
    (hhead : cc.choices.head? = some choice)
    (hlen : choice.finish_reason = "length") :
    getRecipeFromAI foodName (.ok cc)
      = { body := errorJson "Incomplete response"
          status := 200
          headers := ctJson } := by
  simp [getRecipeFromAI, recipeTry, hfood, hhead, hlen, catchResp,
    errToMessage]

/-- C3 witness: truncation wins even when a refusal and a parseable
content are both present. -/
theorem c3_witness :
    getRecipeFromAI (some "pasta")
      (.ok ⟨[⟨"length", ⟨some "no", some (.wellFormed .null)⟩⟩]⟩)
      = { body := errorJson "Incomplete response"
          status := 200
          headers := ctJson } :=
  c3_truncation_precedence (some "pasta") _ _ (by decide) rfl rfl

/-- C4: when the completion is not truncated, carries no refusal, and its
content parses to a schema-conformant JSON value, the success body is that
value unmodified; and serializing any Recipe value and validating it back
against the schema yields the same value, the order of the ingredients and
instructions sequences preserved. -/
theorem c4_content_passthrough_roundtrip :
    (∀ (foodName : Option String) (cc : ChatCompletion) (choice : Choice)
       (j : Json) (r : Recipe),
       strTruthy foodName = true →
       cc.choices.head? = some choice →
       choice.finish_reason ≠ "length" →
       strTruthy choice.message.refusal = false →
       choice.message.content = some (.wellFormed j) →
       recipeOfJson j = some r →
       getRecipeFromAI foodName (.ok cc)
         = { body := .json j, status := 200, headers := ctJson })
    ∧ (∀ r : Recipe, recipeOfJson (recipeToJson r) = some r) := by
  constructor
  · intro fn cc choice j r h1 h2 h3 h4 h5 _
    simp [getRecipeFromAI, recipeTry, h1, h2, h3, h4, h5]
  · exact recipeOfJson_toJson

/-- A concrete Recipe value used to instantiate C4. -/
def sampleRecipe : Recipe :=
  { name := "Lasagna"
    description := "Layered pasta"
    ingredients := [{ name := "pasta", amount := "500g", description := "sheets" }]
    instructions := ["boil", "bake"] }

/-- C4 witness: a concrete schema-conformant content value is passed
through unmodified, and the concrete round-trip holds. -/
theorem c4_witness :
    getRecipeFromAI (some "lasagna")
      (.ok ⟨[⟨"stop", ⟨none, some (.wellFormed (recipeToJson sampleRecipe))⟩⟩]⟩)
      = { body := .json (recipeToJson sampleRecipe)
          status := 200
          headers := ctJson }
    ∧ recipeOfJson (recipeToJson sampleRecipe) = some sampleRecipe :=
  ⟨c4_content_passthrough_roundtrip.1 (some "lasagna") _ _ _ sampleRecipe
      (by decide) rfl (by decide) rfl rfl (recipeOfJson_toJson sampleRecipe),
   c4_content_passthrough_roundtrip.2 sampleRecipe⟩

/-- C5: for a valid query, a non-success upstream status is reported
first, with the upstream status code in the message — with no condition on
the items, so this check precedes the no-results check; only on a
successful upstream status with an absent or empty items list does the
handler report no results. -/
theorem c5_image_failure_order :
    (∀ (q : Option String) (response : HttpResp),
       strTruthy q = true → response.ok = false →
       getImageFromWeb q (.ok response)
         = { body := errorJson ("Google API error: " ++ toString response.status)
             status := 200
             headers := ctJson })
    ∧ (∀ (q : Option String) (response : HttpResp)
         (data : GoogleSearchResponse),
       strTruthy q = true → response.ok = true →
       response.jsonOutcome = .ok data →
       (data.items = none ∨ data.items = some []) →
       getImageFromWeb q (.ok response)
         = { body := errorJson "No results found on Google"
             status := 200
             headers := ctJson }) := by
  constructor
  · intro q response h1 h2
    simp [getImageFromWeb, imageTry, h1, h2, catchResp, errToMessage]
  · intro q response data h1 h2 h3 h4
    rcases h4 with h4 | h4 <;>
      simp [getImageFromWeb, imageTry, h1, h2, h3, h4, catchResp,
        errToMessage]

/-- C5 witness: a 403 upstream status is reported with its code even when
the body would have no items, and an empty items list on a successful
status reports no results. -/
theorem c5_witness :
    getImageFromWeb (some "tomato") (.ok ⟨false, 403, .ok ⟨some []⟩⟩)
      = { body := errorJson "Google API error: 403"
          status := 200
          headers := ctJson }
    ∧ getImageFromWeb (some "tomato") (.ok ⟨true, 200, .ok ⟨some []⟩⟩)
      = { body := errorJson "No results found on Google"
          status := 200
          headers := ctJson } :=
  ⟨c5_image_failure_order.1 (some "tomato") _ (by decide) rfl,
   c5_image_failure_order.2 (some "tomato") _ _ (by decide) rfl rfl (Or.inr rfl)⟩

/-- C6: when the image search succeeds with at least one item, the body is
the object with the first item's link as url and the first item's
image.thumbnailLink as thumb, and the routed end-to-end response has HTTP
status 200. -/
theorem c6_first_item (request : RouterRequest)
    (call : Except Thrown ChatCompletion) (response : HttpResp)
    (data : GoogleSearchResponse) (first : GoogleItem)
    (rest : List GoogleItem)
    (hpath : request.pathname = "/getImage")
    (hq : strTruthy (searchParamsGet request.searchParams "foodOrIngName")
            = true)
    (hok : response.ok = true)
    (hjson : response.jsonOutcome = .ok data)
    (hitems : data.items = some (first :: rest)) :
    routerFetch request call (.ok response)
      = { body := .json (.obj [("url", .str first.link),
                               ("thumb", .str first.image.thumbnailLink)])
          status := 200
          headers := corsHeaders } := by
  simp [routerFetch, hpath, getImageFromWeb, imageTry, hq, hok, hjson,
    hitems]

/-- C6 witness: the end-to-end example with one item whose link is
http://a and whose thumbnail link is http://b. -/
theorem c6_witness :
    routerFetch ⟨"/getImage", [("foodOrIngName", "tomato")]⟩
      (.error (.error "unused"))
      (.ok ⟨true, 200, .ok ⟨some [⟨"http://a", ⟨"http://b"⟩⟩]⟩⟩)
      = { body := .json (.obj [("url", .str "http://a"),
                               ("thumb", .str "http://b")])
          status := 200
          headers := corsHeaders } :=
  c6_first_item _ _ _ _ _ _ rfl (by decide) rfl rfl rfl

/-- C7: when the completion is not truncated but carries a refusal, the
handler returns the refusal error body — with no condition on the content,
so the content is never parsed or returned even when present. -/
theorem c7_refusal_precedence (foodName : Option String)
    (cc : ChatCompletion) (choice : Choice)
    (hfood : strTruthy foodName = true)
    (hhead : cc.choices.head? = some choice)
    (hlen : choice.finish_reason ≠ "length")
    (href : strTruthy choice.message.refusal = true) :
    getRecipeFromAI foodName (.ok cc)
      = { body := errorJson "Model refused to provide a recipe"
          status := 200
          headers := ctJson } := by
  simp [getRecipeFromAI, recipeTry, hfood, hhead, hlen, href, catchResp,
    errToMessage]

/-- C7 witness: the refusal wins even when a content string is present —
here one whose parse would throw, which never happens. -/
theorem c7_witness :
    getRecipeFromAI (some "pasta")
      (.ok ⟨[⟨"stop", ⟨some "I cannot", some (.malformed "SyntaxError")⟩⟩]⟩)
      = { body := errorJson "Model refused to provide a recipe"
          status := 200
          headers := ctJson } :=
  c7_refusal_precedence (some "pasta") _ _ (by decide) rfl (by decide)
    (by decide)

/-- C8: the claim says every JSON-bodied response carries Content-Type:
application/json and every routed response carries the three cross-origin
headers.  The handlers do set Content-Type on every response they build,
each with a JSON body (first two conjuncts), and every routed response —
the 404 path included — carries exactly the three CORS headers (third
conjunct); but the router's spread of the handler's Headers instance
contributes no entries, so the routed /getRecipe response evaluated here
has a JSON body yet lacks the Content-Type header (last two conjuncts),
against the claim's first part end-to-end. -/
theorem c8_content_type_dropped_by_router :
    (∀ (foodName : Option String) (call : Except Thrown ChatCompletion),
       ("Content-Type", "application/json")
           ∈ (getRecipeFromAI foodName call).headers
         ∧ ∃ j, (getRecipeFromAI foodName call).body = .json j)
    ∧ (∀ (q : Option String) (fetchResult : Except Thrown HttpResp),
       ("Content-Type", "application/json")
           ∈ (getImageFromWeb q fetchResult).headers
         ∧ ∃ j, (getImageFromWeb q fetchResult).body = .json j)
    ∧ (∀ (request : RouterRequest) (call : Except Thrown ChatCompletion)
         (fetchResult : Except Thrown HttpResp),
       (routerFetch request call fetchResult).headers = corsHeaders)
    ∧ (routerFetch ⟨"/getRecipe", []⟩ (.error (.error "e"))
          (.error (.error "e"))).body
        = errorJson "foodName parameter is required"
    ∧ ("Content-Type", "application/json")
        ∉ (routerFetch ⟨"/getRecipe", []⟩ (.error (.error "e"))
            (.error (.error "e"))).headers := by
  refine ⟨?_, ?_, ?_, rfl, by decide⟩
  · intro fn call
    obtain ⟨hh, j, hb⟩ := getRecipeFromAI_shape fn call
    exact ⟨by rw [hh]; decide, j, hb⟩
  · intro q fr
    obtain ⟨hh, j, hb⟩ := getImageFromWeb_shape q fr
    exact ⟨by rw [hh]; decide, j, hb⟩
  · intro request call fetchResult
    unfold routerFetch
    split
    · rfl
    · split <;> rfl

end RecipeExplorer
